import Mathlib

/-!
Shallow embedding of `classics-ranking-bot` (src/src/main.rs), a one-shot
batch job that assigns each group member a rank derived from their
account-creation year.

Network calls are modelled as oracles: a sequence of responses indexed by
the call number.  Each underlying API call either succeeds with its payload
or fails with a `RoboatError`.  The retry loops of `year_created` and
`set_group_member_role`, the pagination loop of `main`, the role-id
resolution of `generate_role_id_lookup` and the year-to-role inversion of
`reverse_role_year_pairs` are translated directly from the Rust source.
Rust panics (`unwrap`, slice out of bounds) are modelled explicitly as a
`panicked` outcome, and `tokio::time::sleep` calls are recorded as a list
of slept durations (in seconds).
-/

set_option autoImplicit false

namespace ClassicsRankingBot

/-- The subset of `roboat::RoboatError` variants the source matches on.
All remaining variants of the Rust enum are collapsed into `Other`,
which the source treats uniformly via its catch-all `_ => {}` arm. -/
inductive RoboatError where
  | TooManyRequests : RoboatError
  | InvalidRoblosecurity : RoboatError
  | UnknownRobloxErrorCode (code : Nat) (message : String) : RoboatError
  | Other : RoboatError
  deriving DecidableEq, Repr

/-- The error enum of main.rs (lines 34-45). -/
inductive Error where
  | ConfigFileNotProvided : Error
  | NonRecoverableRoboatError (e : RoboatError) : Error
  | RoleNotFound (name : String) : Error
  | EndpointExceededRetryLimit (endpoint : String) : Error
  deriving DecidableEq, Repr

/-- `const USER_ALREADY_HAS_ROLE_ROBLOX_ERROR_CODE: u16 = 26;` -/
def USER_ALREADY_HAS_ROLE_ROBLOX_ERROR_CODE : Nat := 26

/-- `const ACCOUNT_AGE_RETRIES: usize = 5;` -/
def ACCOUNT_AGE_RETRIES : Nat := 5

/-- `const SET_GROUP_MEMBER_ROLE_RETRIES: usize = 5;` -/
def SET_GROUP_MEMBER_ROLE_RETRIES : Nat := 5

/-- `const TOO_MANY_REQUESTS_COOLDOWN: Duration = Duration::from_secs(60);`
modelled as the number of seconds. -/
def TOO_MANY_REQUESTS_COOLDOWN : Nat := 60

/-- The part of `roboat`'s user-details response the source reads:
`user_details.created_at`, an ISO-8601-like timestamp string. -/
structure UserDetails where
  created_at : String
  deriving DecidableEq, Repr

/-- How a modelled operation can resolve: a normal return, an `Err` return,
or a Rust panic (`unwrap` on `None`/`Err`, out-of-bounds slice). -/
inductive CallOutcome (α : Type) where
  | returned (a : α) : CallOutcome α
  | failed (e : Error) : CallOutcome α
  | panicked : CallOutcome α
  deriving DecidableEq, Repr

/-- Trace of one retry-loop operation: its outcome, the number of
underlying API calls it made, and the sleeps it performed (seconds,
in order). -/
structure RetryRun (α : Type) where
  result : CallOutcome α
  calls : Nat
  sleeps : List Nat
  deriving DecidableEq, Repr

/-! ### `year_created` (main.rs lines 213-233) -/

/-- Decimal digits parse, the core of Rust's `str::parse::<u64>` on a
digit string: `none` on an empty list or a non-digit character. -/
def parseDigits : List Char → Option Nat
  | [] => none
  | [c] => if c.isDigit then some (c.toNat - 48) else none
  | c :: rest =>
    if c.isDigit then
      (parseDigits rest).map (fun v => (c.toNat - 48) * 10 ^ rest.length + v)
    else none

/-- Rust's `str::parse::<u64>`: an optional leading `+` followed by one or
more decimal digits, rejecting values that overflow `u64`. -/
def parseU64 (s : String) : Option Nat :=
  (match s.data with
   | '+' :: rest => parseDigits rest
   | l => parseDigits l).bind
    (fun v => if v < 2 ^ 64 then some v else none)

/-- `user_details.created_at[0..4].parse().unwrap()` (main.rs line 218):
`none` models a panic, from either the slice (fewer than 4 characters)
or the `unwrap` (the 4 characters are not a valid `u64`).  The source
slices bytes; on the timestamp strings at issue (digit prefixes) byte
and character indexing coincide. -/
def extract_year (created_at : String) : Option Nat :=
  if created_at.data.length < 4 then none
  else parseU64 (String.mk (created_at.data.take 4))

/-- The retry loop of `year_created`: `results` is the oracle giving the
outcome of the `i`-th `client.user_details` call, `retries` the value of
`retries_remaining`.  Translated from main.rs lines 216-232. -/
def year_created_loop (results : Nat → Except RoboatError UserDetails) :
    Nat → Nat → RetryRun Nat
  | i, retries =>
    match results i with
    | .ok user_details =>
      match extract_year user_details.created_at with
      | some y => ⟨.returned y, 1, []⟩
      | none => ⟨.panicked, 1, []⟩
    | .error e =>
      match retries with
      | 0 => ⟨.failed (.EndpointExceededRetryLimit "Account age"), 1, []⟩
      | r + 1 =>
        let rest := year_created_loop results (i + 1) r
        match e with
        | .TooManyRequests =>
          ⟨rest.result, rest.calls + 1, TOO_MANY_REQUESTS_COOLDOWN :: rest.sleeps⟩
        | _ => ⟨rest.result, rest.calls + 1, rest.sleeps⟩

/-- `year_created` (main.rs lines 213-233): starts the loop with
`retries_remaining = ACCOUNT_AGE_RETRIES`. -/
def year_created (results : Nat → Except RoboatError UserDetails) : RetryRun Nat :=
  year_created_loop results 0 ACCOUNT_AGE_RETRIES

/-! ### `set_group_member_role` (main.rs lines 235-275) -/

/-- The retry loop of `set_group_member_role`: `results` gives the outcome
of the `i`-th `client.set_group_member_role` call, `retries` the value of
`retries_remaining`.  Translated from main.rs lines 243-274: the
exhaustion check runs first, then the error is classified. -/
def set_group_member_role_loop (results : Nat → Except RoboatError Unit) :
    Nat → Nat → RetryRun Unit
  | i, retries =>
    match results i with
    | .ok _ => ⟨.returned (), 1, []⟩
    | .error e =>
      match retries with
      | 0 => ⟨.failed (.EndpointExceededRetryLimit "Set group member role"), 1, []⟩
      | r + 1 =>
        match e with
        | .InvalidRoblosecurity =>
          ⟨.failed (.NonRecoverableRoboatError .InvalidRoblosecurity), 1, []⟩
        | .TooManyRequests =>
          let rest := set_group_member_role_loop results (i + 1) r
          ⟨rest.result, rest.calls + 1, TOO_MANY_REQUESTS_COOLDOWN :: rest.sleeps⟩
        | .UnknownRobloxErrorCode code _msg =>
          if code = USER_ALREADY_HAS_ROLE_ROBLOX_ERROR_CODE then
            ⟨.returned (), 1, []⟩
          else
            let rest := set_group_member_role_loop results (i + 1) r
            ⟨rest.result, rest.calls + 1, rest.sleeps⟩
        | .Other =>
          let rest := set_group_member_role_loop results (i + 1) r
          ⟨rest.result, rest.calls + 1, rest.sleeps⟩

/-- `set_group_member_role` (main.rs lines 235-275). -/
def set_group_member_role (results : Nat → Except RoboatError Unit) : RetryRun Unit :=
  set_group_member_role_loop results 0 SET_GROUP_MEMBER_ROLE_RETRIES

/-! ### Hash maps as association lists

`std::collections::HashMap` is modelled as an association list in which
`insert` prepends and `get` takes the first matching entry, so that a
later insert shadows an earlier one exactly as `HashMap::insert`
overwrites. -/

/-- `HashMap::get`, first matching entry. -/
def mapLookup {β : Type} (k : String) : List (String × β) → Option β
  | [] => none
  | (k', v) :: rest => if k = k' then some v else mapLookup k rest

/-- Lookup for the year-keyed reversed map. -/
def yearLookup {β : Type} (k : Nat) : List (Nat × β) → Option β
  | [] => none
  | (k', v) :: rest => if k = k' then some v else yearLookup k rest

/-! ### `reverse_role_year_pairs` (main.rs lines 136-146) -/

/-- `reverse_role_year_pairs`: inverts the role-to-years map into a
year-to-role map; `role_year_pairs` is carried as an association list in
the hash map's iteration order.  An insert prepends, so when the same
year occurs under two roles the later-iterated role wins, as for
`HashMap::insert`. -/
def reverse_role_year_pairs (role_year_pairs : List (String × List Nat)) :
    List (Nat × String) :=
  role_year_pairs.foldl
    (fun reversed_map p =>
      p.2.foldl (fun m year => (year, p.1) :: m) reversed_map)
    []

/-- The role chosen for a member in the main loop (main.rs lines 96-124):
the reversed map's entry for the classified year when present, otherwise
the wildcard role. -/
def role_for_year (role_year_pairs : List (String × List Nat))
    (wildcard_role : String) (year : Nat) : String :=
  match yearLookup year (reverse_role_year_pairs role_year_pairs) with
  | some role => role
  | none => wildcard_role

/-! ### `generate_role_id_lookup` (main.rs lines 148-191) -/

/-- One entry of the platform's role list: `role.name`, `role.id`. -/
structure Role where
  id : Nat
  name : String
  deriving DecidableEq, Repr

/-- `group_roles.iter().find(|role| role.name == name).map(|role| role.id)`
(main.rs lines 163-166, 173-176, 182-185). -/
def findRoleId (group_roles : List Role) (name : String) : Option Nat :=
  (group_roles.find? (fun role => role.name = name)).map (fun role => role.id)

/-- One resolution-and-insert step of `generate_role_id_lookup`: resolve
`name` against the role list and insert it, or fail with `RoleNotFound`. -/
def insertResolved (group_roles : List Role) (m : List (String × Nat))
    (name : String) : Except Error (List (String × Nat)) :=
  match findRoleId group_roles name with
  | some role_id => .ok ((name, role_id) :: m)
  | none => .error (.RoleNotFound name)

/-- `generate_role_id_lookup` (main.rs lines 148-191), with the group-role
listing call already resolved to `group_roles`: resolve every scanned
role, every key of `role_year_pairs` (in iteration order) and the
wildcard role, or fail with `RoleNotFound` at the first unresolved
name. -/
def generate_role_id_lookup (group_roles : List Role)
    (scanned_roles : List String) (role_year_pairs : List (String × List Nat))
    (wildcard_role : String) : Except Error (List (String × Nat)) :=
  match scanned_roles.foldlM (insertResolved group_roles) [] with
  | .error e => .error e
  | .ok m1 =>
    match (role_year_pairs.map Prod.fst).foldlM (insertResolved group_roles) m1 with
    | .error e => .error e
    | .ok m2 =>
      match findRoleId group_roles wildcard_role with
      | some wildcard_role_id => .ok ((wildcard_role, wildcard_role_id) :: m2)
      | none => .error (.RoleNotFound wildcard_role)

/-- Every role name referenced by the config: `scanned_roles`, the keys of
`role_year_pairs`, and `wildcard_role`. -/
def referencedNames (scanned_roles : List String)
    (role_year_pairs : List (String × List Nat)) (wildcard_role : String) :
    List String :=
  scanned_roles ++ role_year_pairs.map Prod.fst ++ [wildcard_role]

/-! ### `page_of_members` (main.rs lines 193-211) and the main loop
(main.rs lines 47-134)

The platform's paginated listing endpoint is modelled as an oracle
`pages : Nat → List Member × Option String` giving the response to the
`i`-th listing call of the run (the run is sequential, so the call index
determines the call).  The cursor threading of the source loop is kept;
the oracle's response may depend only on the call index, which subsumes
any cursor-keyed platform behaviour. -/

/-- One member record of a page response; the source reads `member.user_id`. -/
structure Member where
  user_id : Nat
  deriving DecidableEq, Repr

/-- `page_of_members` (main.rs lines 193-211) applied to an
already-resolved page response: collect the `user_id`s and pass the next
cursor through. -/
def page_of_members (response : List Member × Option String) :
    List Nat × Option String :=
  (response.1.map Member.user_id, response.2)

/-- Outcome of the main loop: normal completion, an `Err` propagated by
`?`, a panic (`unwrap` on a missing lookup entry or inside
`year_created`), or fuel exhaustion — an artifact marking runs longer
than the modelling fuel, never reached in the theorems below. -/
inductive MainOutcome where
  | ok : MainOutcome
  | err (e : Error) : MainOutcome
  | panicked : MainOutcome
  | fuelOut : MainOutcome
  deriving DecidableEq, Repr

/-- Processing of one member in the main loop (main.rs lines 93-124):
classify the year, choose the role, `unwrap` its id from the lookup, and
assign.  `yearOf` is the resolved outcome of `year_created` for that
member and `setRole` the resolved outcome of `set_group_member_role`
(member id, role id); the second component counts role-set mutation
calls. -/
def processMember (yearOf : Nat → CallOutcome Nat)
    (setRole : Nat → Nat → CallOutcome Unit)
    (role_id_lookup : List (String × Nat))
    (role_year_pairs : List (String × List Nat)) (wildcard_role : String)
    (member_id : Nat) : MainOutcome × Nat :=
  match yearOf member_id with
  | .failed e => (.err e, 0)
  | .panicked => (.panicked, 0)
  | .returned account_age =>
    let role := role_for_year role_year_pairs wildcard_role account_age
    match mapLookup role role_id_lookup with
    | none => (.panicked, 0)
    | some role_id =>
      match setRole member_id role_id with
      | .returned _ => (.ok, 1)
      | .failed e => (.err e, 1)
      | .panicked => (.panicked, 1)

/-- The inner `for member_id in member_ids` loop (main.rs lines 93-125):
stops at the first member whose processing does not return normally. -/
def processMembers (procMember : Nat → MainOutcome × Nat) :
    List Nat → MainOutcome × Nat
  | [] => (.ok, 0)
  | member_id :: rest =>
    match procMember member_id with
    | (.ok, muts) =>
      let (o, muts') := processMembers procMember rest
      (o, muts + muts')
    | bad => bad

/-- Trace of the pagination loop for one scanned role. -/
structure PageLoopRun where
  outcome : MainOutcome
  calls : Nat
  yielded : List Nat
  mutations : Nat
  deriving DecidableEq, Repr

/-- The per-role pagination loop (main.rs lines 80-130): fetch a page; an
empty member list breaks immediately; otherwise process the members and
continue at the new cursor unless it is absent.  `i` is the index of the
next listing call, `fuel` bounds the modelled iterations. -/
def pageLoop (pages : Nat → List Member × Option String)
    (procMember : Nat → MainOutcome × Nat) :
    Nat → Nat → PageLoopRun
  | 0, _ => ⟨.fuelOut, 0, [], 0⟩
  | fuel + 1, i =>
    let (member_ids, new_cursor) := page_of_members (pages i)
    if member_ids.isEmpty then ⟨.ok, 1, [], 0⟩
    else
      match processMembers procMember member_ids with
      | (.ok, muts) =>
        match new_cursor with
        | none => ⟨.ok, 1, member_ids, muts⟩
        | some _ =>
          let rest := pageLoop pages procMember fuel (i + 1)
          ⟨rest.outcome, rest.calls + 1, member_ids ++ rest.yielded,
            muts + rest.mutations⟩
      | (bad, muts) => ⟨bad, 1, member_ids, muts⟩

/-- The outer `for role_to_scan in config.scanned_roles` loop (main.rs
lines 72-131): look up the scanned role's id (`?` on failure), then run
its pagination loop; `i` is the index of the next listing call. -/
def rolesLoop (pages : Nat → List Member × Option String)
    (procMember : Nat → MainOutcome × Nat)
    (role_id_lookup : List (String × Nat)) (fuel : Nat) :
    List String → Nat → PageLoopRun
  | [], _ => ⟨.ok, 0, [], 0⟩
  | role_to_scan :: rest, i =>
    match mapLookup role_to_scan role_id_lookup with
    | none => ⟨.err (.RoleNotFound role_to_scan), 0, [], 0⟩
    | some _role_to_scan_id =>
      let r := pageLoop pages procMember fuel i
      match r.outcome with
      | .ok =>
        let r' := rolesLoop pages procMember role_id_lookup fuel rest (i + r.calls)
        ⟨r'.outcome, r.calls + r'.calls, r.yielded ++ r'.yielded,
          r.mutations + r'.mutations⟩
      | _ => r

/-- `main` after config parsing (main.rs lines 58-133): build the reversed
year map, resolve all role ids (`?` aborts the run on failure), then scan
each configured role. -/
def mainRun (group_roles : List Role) (scanned_roles : List String)
    (role_year_pairs : List (String × List Nat)) (wildcard_role : String)
    (pages : Nat → List Member × Option String)
    (yearOf : Nat → CallOutcome Nat) (setRole : Nat → Nat → CallOutcome Unit)
    (fuel : Nat) : PageLoopRun :=
  match generate_role_id_lookup group_roles scanned_roles role_year_pairs
      wildcard_role with
  | .error e => ⟨.err e, 0, [], 0⟩
  | .ok role_id_lookup =>
    rolesLoop pages
      (processMember yearOf setRole role_id_lookup role_year_pairs wildcard_role)
      role_id_lookup fuel scanned_roles 0

/-! ### Spec-side auxiliary definitions -/

/-- Number of rate-limited responses among the `n` calls starting at call
index `i`: the specification-side count against which the recorded
sleeps are measured. -/
def isRateLimited {α : Type} : Except RoboatError α → Bool
  | .error .TooManyRequests => true
  | _ => false

def rateLimitedCount {α : Type} (results : Nat → Except RoboatError α) :
    Nat → Nat → Nat
  | _i, 0 => 0
  | i, n + 1 =>
    (if isRateLimited (results i) then 1 else 0) +
      rateLimitedCount results (i + 1) n

/-- Specification-side value of a most-significant-first digit string,
against which `parseDigits` is measured. -/
def natOfDigits : List Char → Nat
  | [] => 0
  | c :: rest => (c.toNat - 48) * 10 ^ rest.length + natOfDigits rest

/-- Oracle on which C1's second half fails: the user-detail call fails
(rate-limited) exactly 5 times, then succeeds with a parseable
timestamp. -/
def c1cexResults : Nat → Except RoboatError UserDetails := fun j =>
  if j < 5 then .error .TooManyRequests
  else .ok ⟨"2006-03-21T00:00:00.000Z"⟩

/-- Oracle on which C2 fails: five generic failures exhaust the retry
budget, then the sixth attempt fails with the already-has-role code 26. -/
def c2cexResults : Nat → Except RoboatError Unit := fun j =>
  if j < 5 then .error .Other
  else .error (.UnknownRobloxErrorCode 26 "already has role")

/-- Oracle on which C3 fails: five generic failures exhaust the retry
budget, then the sixth attempt fails with an invalid credential. -/
def c3cexResults : Nat → Except RoboatError Unit := fun j =>
  if j < 5 then .error .Other
  else .error .InvalidRoblosecurity

/-! ## Step lemmas for the retry loops -/

theorem year_created_loop_ok (results : Nat → Except RoboatError UserDetails)
    (i retries : Nat) (d : UserDetails) (h : results i = .ok d) :
    year_created_loop results i retries =
      match extract_year d.created_at with
      | some y => ⟨.returned y, 1, []⟩
      | none => ⟨.panicked, 1, []⟩ := by
  unfold year_created_loop
  rw [h]

theorem year_created_loop_err_zero (results : Nat → Except RoboatError UserDetails)
    (i : Nat) (e : RoboatError) (h : results i = .error e) :
    year_created_loop results i 0 =
      ⟨.failed (.EndpointExceededRetryLimit "Account age"), 1, []⟩ := by
  unfold year_created_loop
  rw [h]

theorem year_created_loop_rl_succ (results : Nat → Except RoboatError UserDetails)
    (i r : Nat) (h : results i = .error .TooManyRequests) :
    year_created_loop results i (r + 1) =
      ⟨(year_created_loop results (i + 1) r).result,
        (year_created_loop results (i + 1) r).calls + 1,
        TOO_MANY_REQUESTS_COOLDOWN :: (year_created_loop results (i + 1) r).sleeps⟩ := by
  conv_lhs => rw [year_created_loop]
  rw [h]

theorem year_created_loop_other_succ (results : Nat → Except RoboatError UserDetails)
    (i r : Nat) (e : RoboatError) (h : results i = .error e)
    (he : e ≠ .TooManyRequests) :
    year_created_loop results i (r + 1) =
      ⟨(year_created_loop results (i + 1) r).result,
        (year_created_loop results (i + 1) r).calls + 1,
        (year_created_loop results (i + 1) r).sleeps⟩ := by
  cases e with
  | TooManyRequests => exact absurd rfl he
  | InvalidRoblosecurity =>
    conv_lhs => rw [year_created_loop]
    rw [h]
  | UnknownRobloxErrorCode code msg =>
    conv_lhs => rw [year_created_loop]
    rw [h]
  | Other =>
    conv_lhs => rw [year_created_loop]
    rw [h]

theorem set_group_member_role_loop_ok (results : Nat → Except RoboatError Unit)
    (i retries : Nat) (u : Unit) (h : results i = .ok u) :
    set_group_member_role_loop results i retries = ⟨.returned (), 1, []⟩ := by
  unfold set_group_member_role_loop
  rw [h]

theorem set_group_member_role_loop_err_zero (results : Nat → Except RoboatError Unit)
    (i : Nat) (e : RoboatError) (h : results i = .error e) :
    set_group_member_role_loop results i 0 =
      ⟨.failed (.EndpointExceededRetryLimit "Set group member role"), 1, []⟩ := by
  unfold set_group_member_role_loop
  rw [h]

theorem set_group_member_role_loop_invalid_succ (results : Nat → Except RoboatError Unit)
    (i r : Nat) (h : results i = .error .InvalidRoblosecurity) :
    set_group_member_role_loop results i (r + 1) =
      ⟨.failed (.NonRecoverableRoboatError .InvalidRoblosecurity), 1, []⟩ := by
  conv_lhs => rw [set_group_member_role_loop]
  rw [h]

theorem set_group_member_role_loop_rl_succ (results : Nat → Except RoboatError Unit)
    (i r : Nat) (h : results i = .error .TooManyRequests) :
    set_group_member_role_loop results i (r + 1) =
      ⟨(set_group_member_role_loop results (i + 1) r).result,
        (set_group_member_role_loop results (i + 1) r).calls + 1,
        TOO_MANY_REQUESTS_COOLDOWN ::
          (set_group_member_role_loop results (i + 1) r).sleeps⟩ := by
  conv_lhs => rw [set_group_member_role_loop]
  rw [h]

theorem set_group_member_role_loop_code_succ (results : Nat → Except RoboatError Unit)
    (i r code : Nat) (msg : String)
    (h : results i = .error (.UnknownRobloxErrorCode code msg)) :
    set_group_member_role_loop results i (r + 1) =
      if code = USER_ALREADY_HAS_ROLE_ROBLOX_ERROR_CODE then
        ⟨.returned (), 1, []⟩
      else
        ⟨(set_group_member_role_loop results (i + 1) r).result,
          (set_group_member_role_loop results (i + 1) r).calls + 1,
          (set_group_member_role_loop results (i + 1) r).sleeps⟩ := by
  conv_lhs => rw [set_group_member_role_loop]
  rw [h]

theorem set_group_member_role_loop_other_succ (results : Nat → Except RoboatError Unit)
    (i r : Nat) (h : results i = .error .Other) :
    set_group_member_role_loop results i (r + 1) =
      ⟨(set_group_member_role_loop results (i + 1) r).result,
        (set_group_member_role_loop results (i + 1) r).calls + 1,
        (set_group_member_role_loop results (i + 1) r).sleeps⟩ := by
  conv_lhs => rw [set_group_member_role_loop]
  rw [h]

/-! ## Helper lemmas about the retry loops -/

theorem year_created_loop_calls_le (results : Nat → Except RoboatError UserDetails) :
    ∀ retries i, (year_created_loop results i retries).calls ≤ retries + 1 := by
  intro retries
  induction retries with
  | zero =>
    intro i
    cases h : results i with
    | ok d =>
      rw [year_created_loop_ok results i 0 d h]
      split <;> simp
    | error e =>
      rw [year_created_loop_err_zero results i e h]
  | succ r ih =>
    intro i
    have hr := ih (i + 1)
    cases h : results i with
    | ok d =>
      rw [year_created_loop_ok results i (r + 1) d h]
      split <;> simp
    | error e =>
      by_cases he : e = RoboatError.TooManyRequests
      · subst he
        rw [year_created_loop_rl_succ results i r h]
        simpa using hr
      · rw [year_created_loop_other_succ results i r e h he]
        simpa using hr

theorem year_created_loop_calls_pos (results : Nat → Except RoboatError UserDetails) :
    ∀ retries i, 1 ≤ (year_created_loop results i retries).calls := by
  intro retries i
  cases h : results i with
  | ok d =>
    rw [year_created_loop_ok results i retries d h]
    split <;> simp
  | error e =>
    cases retries with
    | zero => rw [year_created_loop_err_zero results i e h]
    | succ r =>
      by_cases he : e = RoboatError.TooManyRequests
      · subst he
        rw [year_created_loop_rl_succ results i r h]
        simp
      · rw [year_created_loop_other_succ results i r e h he]
        simp

theorem set_group_member_role_loop_calls_le (results : Nat → Except RoboatError Unit) :
    ∀ retries i, (set_group_member_role_loop results i retries).calls ≤ retries + 1 := by
  intro retries
  induction retries with
  | zero =>
    intro i
    cases h : results i with
    | ok u => rw [set_group_member_role_loop_ok results i 0 u h]
    | error e => rw [set_group_member_role_loop_err_zero results i e h]
  | succ r ih =>
    intro i
    have hr := ih (i + 1)
    cases h : results i with
    | ok u =>
      rw [set_group_member_role_loop_ok results i (r + 1) u h]
      simp
    | error e =>
      cases e with
      | TooManyRequests =>
        rw [set_group_member_role_loop_rl_succ results i r h]
        simpa using hr
      | InvalidRoblosecurity =>
        rw [set_group_member_role_loop_invalid_succ results i r h]
        simp
      | UnknownRobloxErrorCode code msg =>
        rw [set_group_member_role_loop_code_succ results i r code msg h]
        split
        · simp
        · simpa using hr
      | Other =>
        rw [set_group_member_role_loop_other_succ results i r h]
        simpa using hr

theorem set_group_member_role_loop_calls_pos (results : Nat → Except RoboatError Unit) :
    ∀ retries i, 1 ≤ (set_group_member_role_loop results i retries).calls := by
  intro retries i
  cases h : results i with
  | ok u => rw [set_group_member_role_loop_ok results i retries u h]
  | error e =>
    cases retries with
    | zero => rw [set_group_member_role_loop_err_zero results i e h]
    | succ r =>
      cases e with
      | TooManyRequests =>
        rw [set_group_member_role_loop_rl_succ results i r h]
        simp
      | InvalidRoblosecurity =>
        rw [set_group_member_role_loop_invalid_succ results i r h]
      | UnknownRobloxErrorCode code msg =>
        rw [set_group_member_role_loop_code_succ results i r code msg h]
        split <;> simp
      | Other =>
        rw [set_group_member_role_loop_other_succ results i r h]
        simp

theorem rateLimitedCount_zero {α : Type} (results : Nat → Except RoboatError α)
    (i : Nat) : rateLimitedCount results i 0 = 0 := rfl

theorem rateLimitedCount_succ {α : Type} (results : Nat → Except RoboatError α)
    (i n : Nat) :
    rateLimitedCount results i (n + 1) =
      (if isRateLimited (results i) then 1 else 0) +
        rateLimitedCount results (i + 1) n := rfl

theorem year_created_loop_sleeps (results : Nat → Except RoboatError UserDetails) :
    ∀ retries i, (year_created_loop results i retries).sleeps =
      List.replicate
        (rateLimitedCount results i ((year_created_loop results i retries).calls - 1))
        TOO_MANY_REQUESTS_COOLDOWN := by
  intro retries
  induction retries with
  | zero =>
    intro i
    cases h : results i with
    | ok d =>
      rw [year_created_loop_ok results i 0 d h]
      split <;> simp [rateLimitedCount_zero]
    | error e =>
      rw [year_created_loop_err_zero results i e h]
      simp [rateLimitedCount_zero]
  | succ r ih =>
    intro i
    have hpos := year_created_loop_calls_pos results r (i + 1)
    have hih := ih (i + 1)
    obtain ⟨m, hm⟩ : ∃ m, (year_created_loop results (i + 1) r).calls = m + 1 :=
      ⟨(year_created_loop results (i + 1) r).calls - 1, by omega⟩
    rw [hm] at hih
    simp only [Nat.add_sub_cancel] at hih
    cases h : results i with
    | ok d =>
      rw [year_created_loop_ok results i (r + 1) d h]
      split <;> simp [rateLimitedCount_zero]
    | error e =>
      by_cases hrl : e = RoboatError.TooManyRequests
      · subst hrl
        rw [year_created_loop_rl_succ results i r h]
        show TOO_MANY_REQUESTS_COOLDOWN :: (year_created_loop results (i + 1) r).sleeps =
          List.replicate
            (rateLimitedCount results i
              ((year_created_loop results (i + 1) r).calls + 1 - 1))
            TOO_MANY_REQUESTS_COOLDOWN
        rw [Nat.add_sub_cancel, hm, hih, rateLimitedCount_succ]
        have hb : isRateLimited (results i) = true := by rw [h]; rfl
        rw [hb]
        simp [List.replicate_succ, Nat.one_add]
      · rw [year_created_loop_other_succ results i r e h hrl]
        show (year_created_loop results (i + 1) r).sleeps =
          List.replicate
            (rateLimitedCount results i
              ((year_created_loop results (i + 1) r).calls + 1 - 1))
            TOO_MANY_REQUESTS_COOLDOWN
        rw [Nat.add_sub_cancel, hm, hih, rateLimitedCount_succ]
        have hb : isRateLimited (results i) = false := by
          rw [h]
          cases e with
          | TooManyRequests => exact absurd rfl hrl
          | InvalidRoblosecurity => rfl
          | UnknownRobloxErrorCode code msg => rfl
          | Other => rfl
        rw [hb]
        simp

theorem set_group_member_role_loop_sleeps (results : Nat → Except RoboatError Unit) :
    ∀ retries i, (set_group_member_role_loop results i retries).sleeps =
      List.replicate
        (rateLimitedCount results i
          ((set_group_member_role_loop results i retries).calls - 1))
        TOO_MANY_REQUESTS_COOLDOWN := by
  intro retries
  induction retries with
  | zero =>
    intro i
    cases h : results i with
    | ok u =>
      rw [set_group_member_role_loop_ok results i 0 u h]
      simp [rateLimitedCount_zero]
    | error e =>
      rw [set_group_member_role_loop_err_zero results i e h]
      simp [rateLimitedCount_zero]
  | succ r ih =>
    intro i
    have hpos := set_group_member_role_loop_calls_pos results r (i + 1)
    have hih := ih (i + 1)
    obtain ⟨m, hm⟩ : ∃ m, (set_group_member_role_loop results (i + 1) r).calls = m + 1 :=
      ⟨(set_group_member_role_loop results (i + 1) r).calls - 1, by omega⟩
    rw [hm] at hih
    simp only [Nat.add_sub_cancel] at hih
    cases h : results i with
    | ok u =>
      rw [set_group_member_role_loop_ok results i (r + 1) u h]
      simp [rateLimitedCount_zero]
    | error e =>
      cases e with
      | TooManyRequests =>
        rw [set_group_member_role_loop_rl_succ results i r h]
        show TOO_MANY_REQUESTS_COOLDOWN ::
            (set_group_member_role_loop results (i + 1) r).sleeps =
          List.replicate
            (rateLimitedCount results i
              ((set_group_member_role_loop results (i + 1) r).calls + 1 - 1))
            TOO_MANY_REQUESTS_COOLDOWN
        rw [Nat.add_sub_cancel, hm, hih, rateLimitedCount_succ]
        have hb : isRateLimited (results i) = true := by rw [h]; rfl
        rw [hb]
        simp [List.replicate_succ, Nat.one_add]
      | InvalidRoblosecurity =>
        rw [set_group_member_role_loop_invalid_succ results i r h]
        simp [rateLimitedCount_zero]
      | UnknownRobloxErrorCode code msg =>
        rw [set_group_member_role_loop_code_succ results i r code msg h]
        by_cases hc : code = USER_ALREADY_HAS_ROLE_ROBLOX_ERROR_CODE
        · rw [if_pos hc]
          simp [rateLimitedCount_zero]
        · rw [if_neg hc]
          show (set_group_member_role_loop results (i + 1) r).sleeps =
            List.replicate
              (rateLimitedCount results i
                ((set_group_member_role_loop results (i + 1) r).calls + 1 - 1))
              TOO_MANY_REQUESTS_COOLDOWN
          rw [Nat.add_sub_cancel, hm, hih, rateLimitedCount_succ]
          have hb : isRateLimited (results i) = false := by rw [h]; rfl
          rw [hb]
          simp
      | Other =>
        rw [set_group_member_role_loop_other_succ results i r h]
        show (set_group_member_role_loop results (i + 1) r).sleeps =
          List.replicate
            (rateLimitedCount results i
              ((set_group_member_role_loop results (i + 1) r).calls + 1 - 1))
            TOO_MANY_REQUESTS_COOLDOWN
        rw [Nat.add_sub_cancel, hm, hih, rateLimitedCount_succ]
        have hb : isRateLimited (results i) = false := by rw [h]; rfl
        rw [hb]
        simp

theorem year_created_loop_succeeds (results : Nat → Except RoboatError UserDetails) :
    ∀ (k retries i : Nat) (d : UserDetails) (y : Nat), k ≤ retries →
      (∀ j, j < k → ∃ e, results (i + j) = .error e) →
      results (i + k) = .ok d →
      extract_year d.created_at = some y →
      (year_created_loop results i retries).result = .returned y ∧
        (year_created_loop results i retries).calls = k + 1 := by
  intro k
  induction k with
  | zero =>
    intro retries i d y _ _ hok hy
    rw [Nat.add_zero] at hok
    rw [year_created_loop_ok results i retries d hok, hy]
    exact ⟨rfl, rfl⟩
  | succ k ih =>
    intro retries i d y hk hfail hok hy
    obtain ⟨e, he⟩ := hfail 0 (Nat.succ_pos k)
    rw [Nat.add_zero] at he
    obtain ⟨r, rfl⟩ : ∃ r, retries = r + 1 := ⟨retries - 1, by omega⟩
    have ih' := ih r (i + 1) d y (by omega)
      (fun j hj => by
        have hf := hfail (j + 1) (by omega)
        rwa [show i + (j + 1) = i + 1 + j by omega] at hf)
      (by rwa [show i + 1 + k = i + (k + 1) by omega]) hy
    by_cases hrl : e = RoboatError.TooManyRequests
    · subst hrl
      rw [year_created_loop_rl_succ results i r he]
      refine ⟨ih'.1, ?_⟩
      show (year_created_loop results (i + 1) r).calls + 1 = k + 1 + 1
      omega
    · rw [year_created_loop_other_succ results i r e he hrl]
      refine ⟨ih'.1, ?_⟩
      show (year_created_loop results (i + 1) r).calls + 1 = k + 1 + 1
      omega

theorem year_created_loop_exhausts (results : Nat → Except RoboatError UserDetails) :
    ∀ retries i, (∀ j, j ≤ retries → ∃ e, results (i + j) = .error e) →
      (year_created_loop results i retries).result =
        .failed (.EndpointExceededRetryLimit "Account age") ∧
      (year_created_loop results i retries).calls = retries + 1 := by
  intro retries
  induction retries with
  | zero =>
    intro i hfail
    obtain ⟨e, he⟩ := hfail 0 (Nat.le_refl 0)
    rw [Nat.add_zero] at he
    rw [year_created_loop_err_zero results i e he]
    exact ⟨rfl, rfl⟩
  | succ r ih =>
    intro i hfail
    obtain ⟨e, he⟩ := hfail 0 (Nat.zero_le _)
    rw [Nat.add_zero] at he
    have ih' := ih (i + 1) (fun j hj => by
      have hf := hfail (j + 1) (by omega)
      rwa [show i + (j + 1) = i + 1 + j by omega] at hf)
    by_cases hrl : e = RoboatError.TooManyRequests
    · subst hrl
      rw [year_created_loop_rl_succ results i r he]
      refine ⟨ih'.1, ?_⟩
      show (year_created_loop results (i + 1) r).calls + 1 = r + 1 + 1
      omega
    · rw [year_created_loop_other_succ results i r e he hrl]
      refine ⟨ih'.1, ?_⟩
      show (year_created_loop results (i + 1) r).calls + 1 = r + 1 + 1
      omega

/-! ## Claim theorems: the retry machinery -/

/-- C1 (corrected): if the user-detail call fails transiently exactly
`k ≤ 5` times and then succeeds with a parseable timestamp, `year_created`
succeeds after `k + 1` calls and returns the classified year; if it fails
6 times, `year_created` fails with `EndpointExceededRetryLimit("Account
age")` after exactly 6 calls.  (The claim's 5-failure cutoff and
5-attempt bound are refuted by `c1_counterexample`: the exhaustion check
runs after a failure, so the loop makes up to 6 attempts.) -/
theorem year_created_retry_budget :
    (∀ (results : Nat → Except RoboatError UserDetails) (k : Nat)
        (d : UserDetails) (y : Nat),
      k ≤ ACCOUNT_AGE_RETRIES →
      (∀ j, j < k → ∃ e, results j = .error e) →
      results k = .ok d →
      extract_year d.created_at = some y →
      (year_created results).result = .returned y ∧
        (year_created results).calls = k + 1) ∧
    (∀ results : Nat → Except RoboatError UserDetails,
      (∀ j, j ≤ ACCOUNT_AGE_RETRIES → ∃ e, results j = .error e) →
      (year_created results).result =
          .failed (.EndpointExceededRetryLimit "Account age") ∧
        (year_created results).calls = ACCOUNT_AGE_RETRIES + 1) := by
  constructor
  · intro results k d y hk hfail hok hy
    exact year_created_loop_succeeds results k ACCOUNT_AGE_RETRIES 0 d y hk
      (fun j hj => by simpa using hfail j hj) (by simpa using hok) hy
  · intro results hfail
    exact year_created_loop_exhausts results ACCOUNT_AGE_RETRIES 0
      (fun j hj => by simpa using hfail j hj)

/-- C1 witness: two transient failures and then a success yield the
classified year 2010 on the third call; an always-failing call resolves
with the retry-limit error after 6 calls. -/
theorem year_created_retry_budget_witness :
    ((year_created (fun j => if j < 2 then .error .Other
      else .ok ⟨"2010-01-01T00:00:00Z"⟩)).result = .returned 2010 ∧
    (year_created (fun j => if j < 2 then .error .Other
      else .ok ⟨"2010-01-01T00:00:00Z"⟩)).calls = 3) ∧
    ((year_created (fun _ => .error .Other)).result =
      .failed (.EndpointExceededRetryLimit "Account age") ∧
    (year_created (fun _ => .error .Other)).calls = ACCOUNT_AGE_RETRIES + 1) :=
  ⟨year_created_retry_budget.1 _ 2 ⟨"2010-01-01T00:00:00Z"⟩ 2010 (by decide)
    (fun j hj => ⟨.Other, by rw [if_pos hj]⟩) (by rfl) (by decide),
   year_created_retry_budget.2 (fun _ => .error .Other)
    (fun j _ => ⟨.Other, rfl⟩)⟩

/-- C1 counterexample: the user-detail call fails exactly 5 times and then
succeeds, yet the overall call succeeds (the claim says it fails with
`EndpointExceededRetryLimit`) and 6 calls are made (the claim says at
most 5). -/
theorem year_created_retry_budget_counterexample :
    c1cexResults 0 = .error .TooManyRequests ∧
    c1cexResults 1 = .error .TooManyRequests ∧
    c1cexResults 2 = .error .TooManyRequests ∧
    c1cexResults 3 = .error .TooManyRequests ∧
    c1cexResults 4 = .error .TooManyRequests ∧
    c1cexResults 5 = .ok ⟨"2006-03-21T00:00:00.000Z"⟩ ∧
    (year_created c1cexResults).result = .returned 2006 ∧
    (year_created c1cexResults).calls = 6 := by
  refine ⟨rfl, rfl, rfl, rfl, rfl, rfl, ?_, ?_⟩ <;> decide

/-- C2 (corrected): on every attempt made while the retry budget is not
yet exhausted, a failure with the already-has-role code 26 makes
`set_group_member_role` return success immediately, with no further calls
and no sleep; but when the budget is already exhausted (the 6th failure),
even a code-26 failure is surfaced as
`EndpointExceededRetryLimit("Set group member role")` — refuted as
stated by `already_has_role_counterexample`. -/
theorem already_has_role_is_success (results : Nat → Except RoboatError Unit)
    (i : Nat) (msg : String)
    (h : results i = .error
      (.UnknownRobloxErrorCode USER_ALREADY_HAS_ROLE_ROBLOX_ERROR_CODE msg)) :
    (∀ r, set_group_member_role_loop results i (r + 1) = ⟨.returned (), 1, []⟩) ∧
    (set_group_member_role_loop results i 0).result =
      .failed (.EndpointExceededRetryLimit "Set group member role") ∧
    (i = 0 → set_group_member_role results = ⟨.returned (), 1, []⟩) := by
  refine ⟨fun r => ?_, ?_, fun hi => ?_⟩
  · rw [set_group_member_role_loop_code_succ results i r
      USER_ALREADY_HAS_ROLE_ROBLOX_ERROR_CODE msg h]
    rw [if_pos rfl]
  · rw [set_group_member_role_loop_err_zero results i _ h]
  · subst hi
    show set_group_member_role_loop results 0 (4 + 1) = ⟨.returned (), 1, []⟩
    rw [set_group_member_role_loop_code_succ results 0 4
      USER_ALREADY_HAS_ROLE_ROBLOX_ERROR_CODE msg h]
    rw [if_pos rfl]

/-- C2 witness: a first-call code-26 failure yields immediate success with
exactly one call and no sleeps. -/
theorem already_has_role_is_success_witness :
    set_group_member_role
        (fun _ => .error (.UnknownRobloxErrorCode 26 "user already has role")) =
      ⟨.returned (), 1, []⟩ :=
  (already_has_role_is_success
    (fun _ => .error (.UnknownRobloxErrorCode 26 "user already has role"))
    0 "user already has role" rfl).2.2 rfl

/-- C2 counterexample: after five generic failures the sixth attempt fails
with code 26, and the operation surfaces `EndpointExceededRetryLimit`
instead of returning success. -/
theorem already_has_role_counterexample :
    c2cexResults 5 = .error
      (.UnknownRobloxErrorCode USER_ALREADY_HAS_ROLE_ROBLOX_ERROR_CODE
        "already has role") ∧
    set_group_member_role c2cexResults =
      ⟨.failed (.EndpointExceededRetryLimit "Set group member role"), 6, []⟩ ∧
    (set_group_member_role c2cexResults).result ≠ .returned () := by
  refine ⟨rfl, ?_, ?_⟩ <;> decide

/-- C3 (corrected): on every attempt made while the retry budget is not
yet exhausted, an invalid-credential failure makes
`set_group_member_role` fail immediately with
`NonRecoverableRoboatError(InvalidRoblosecurity)` — the error propagated
as-is — with no further calls and no sleep; but when the budget is
already exhausted (the 6th failure), the retry-limit error is returned
instead — refuted as stated by `invalid_credential_counterexample`. -/
theorem invalid_credential_is_fatal (results : Nat → Except RoboatError Unit)
    (i : Nat) (h : results i = .error .InvalidRoblosecurity) :
    (∀ r, set_group_member_role_loop results i (r + 1) =
      ⟨.failed (.NonRecoverableRoboatError .InvalidRoblosecurity), 1, []⟩) ∧
    (set_group_member_role_loop results i 0).result =
      .failed (.EndpointExceededRetryLimit "Set group member role") ∧
    (i = 0 → set_group_member_role results =
      ⟨.failed (.NonRecoverableRoboatError .InvalidRoblosecurity), 1, []⟩) := by
  refine ⟨fun r => ?_, ?_, fun hi => ?_⟩
  · rw [set_group_member_role_loop_invalid_succ results i r h]
  · rw [set_group_member_role_loop_err_zero results i _ h]
  · subst hi
    show set_group_member_role_loop results 0 (4 + 1) =
      ⟨.failed (.NonRecoverableRoboatError .InvalidRoblosecurity), 1, []⟩
    rw [set_group_member_role_loop_invalid_succ results 0 4 h]

/-- C3 witness: a first-call invalid-credential failure aborts immediately
after exactly one call, propagating the credential error. -/
theorem invalid_credential_is_fatal_witness :
    set_group_member_role (fun _ => .error .InvalidRoblosecurity) =
      ⟨.failed (.NonRecoverableRoboatError .InvalidRoblosecurity), 1, []⟩ :=
  (invalid_credential_is_fatal (fun _ => .error .InvalidRoblosecurity)
    0 rfl).2.2 rfl

/-- C3 counterexample: after five generic failures the sixth attempt fails
with an invalid credential, and the operation surfaces
`EndpointExceededRetryLimit` instead of propagating the credential error
as-is. -/
theorem invalid_credential_counterexample :
    c3cexResults 5 = .error .InvalidRoblosecurity ∧
    set_group_member_role c3cexResults =
      ⟨.failed (.EndpointExceededRetryLimit "Set group member role"), 6, []⟩ ∧
    (set_group_member_role c3cexResults).result ≠
      .failed (.NonRecoverableRoboatError .InvalidRoblosecurity) := by
  refine ⟨rfl, ?_, ?_⟩ <;> decide

/-- C7 (confirmed): in both retry loops, the recorded sleeps are exactly
one `TOO_MANY_REQUESTS_COOLDOWN` (60-second) cooldown per rate-limited
failure among the retried calls — regardless of the attempt number — and
no sleep for any other failure kind or for a success. -/
theorem rate_limit_cooldowns :
    (∀ (results : Nat → Except RoboatError UserDetails) (i retries : Nat),
      (year_created_loop results i retries).sleeps =
        List.replicate
          (rateLimitedCount results i ((year_created_loop results i retries).calls - 1))
          TOO_MANY_REQUESTS_COOLDOWN) ∧
    (∀ (results : Nat → Except RoboatError Unit) (i retries : Nat),
      (set_group_member_role_loop results i retries).sleeps =
        List.replicate
          (rateLimitedCount results i
            ((set_group_member_role_loop results i retries).calls - 1))
          TOO_MANY_REQUESTS_COOLDOWN) :=
  ⟨fun results i retries => year_created_loop_sleeps results retries i,
   fun results i retries => set_group_member_role_loop_sleeps results retries i⟩

/-- C10 (confirmed): both retry loops always resolve, after at most 6
underlying API calls. -/
theorem retry_loops_bounded_calls :
    (∀ results : Nat → Except RoboatError UserDetails,
      (year_created results).calls ≤ 6) ∧
    (∀ results : Nat → Except RoboatError Unit,
      (set_group_member_role results).calls ≤ 6) :=
  ⟨fun results => year_created_loop_calls_le results ACCOUNT_AGE_RETRIES 0,
   fun results => set_group_member_role_loop_calls_le results
     SET_GROUP_MEMBER_ROLE_RETRIES 0⟩

/-! ## Claim theorems: pagination -/

/-- C4 (confirmed): for every sequence of page responses and any remaining
fuel, a page response with zero members terminates the enumeration at
once — exactly one listing call from that point, nothing yielded — even
when the response carries a non-absent cursor; and a page with members
but an absent next cursor terminates the enumeration after exactly that
one listing call, with that page's members yielded. -/
theorem pagination_termination (pages : Nat → List Member × Option String)
    (procMember : Nat → MainOutcome × Nat) (fuel i : Nat) :
    ((pages i).1 = [] → pageLoop pages procMember (fuel + 1) i = ⟨.ok, 1, [], 0⟩) ∧
    ((pages i).1 ≠ [] → (pages i).2 = none →
      (pageLoop pages procMember (fuel + 1) i).calls = 1 ∧
      (pageLoop pages procMember (fuel + 1) i).yielded =
        (pages i).1.map Member.user_id) := by
  constructor
  · intro h
    unfold pageLoop page_of_members
    rw [h]
    simp
  · intro h hc
    unfold pageLoop page_of_members
    rw [hc]
    have hne : ((pages i).1.map Member.user_id).isEmpty = false := by
      cases hp : (pages i).1 with
      | nil => exact absurd hp h
      | cons a rest => simp
    rcases hm : processMembers procMember ((pages i).1.map Member.user_id)
      with ⟨o, muts⟩
    simp only [hne, Bool.false_eq_true, if_false, hm]
    cases o <;> simp

/-- C4 witness: a first page with zero members but a present cursor stops
after one listing call with nothing yielded; a first page with one member
(id 77) and an absent cursor stops after one listing call having yielded
that member. -/
theorem pagination_termination_witness :
    pageLoop (fun _ => ([], some "cursor")) (fun _ => (.ok, 1)) 1 0 =
      ⟨.ok, 1, [], 0⟩ ∧
    (pageLoop (fun _ => ([⟨77⟩], none)) (fun _ => (.ok, 1)) 1 0).calls = 1 ∧
    (pageLoop (fun _ => ([⟨77⟩], none)) (fun _ => (.ok, 1)) 1 0).yielded = [77] :=
  ⟨(pagination_termination (fun _ => ([], some "cursor")) (fun _ => (.ok, 1)) 0 0).1
      rfl,
   (pagination_termination (fun _ => ([⟨77⟩], none)) (fun _ => (.ok, 1)) 0 0).2
      (by simp) rfl⟩

/-! ## Helper lemmas: the reversed year map -/

theorem yearLookup_cons {β : Type} (y k : Nat) (v : β) (m : List (Nat × β)) :
    yearLookup y ((k, v) :: m) = if y = k then some v else yearLookup y m := rfl

theorem yearLookup_inner_not_mem (role : String) (years : List Nat) :
    ∀ (m0 : List (Nat × String)) (y : Nat), y ∉ years →
      yearLookup y (years.foldl (fun m year => (year, role) :: m) m0) =
        yearLookup y m0 := by
  induction years with
  | nil => intro m0 y _; rfl
  | cons a rest ih =>
    intro m0 y hy
    simp only [List.foldl_cons]
    rw [ih ((a, role) :: m0) y (fun hr => hy (List.mem_cons_of_mem a hr))]
    refine (yearLookup_cons y a role m0).trans (if_neg ?_)
    intro he
    exact hy (by rw [he]; exact List.mem_cons_self a rest)

theorem yearLookup_inner_mem (role : String) (years : List Nat) :
    ∀ (m0 : List (Nat × String)) (y : Nat), y ∈ years →
      yearLookup y (years.foldl (fun m year => (year, role) :: m) m0) =
        some role := by
  induction years with
  | nil => intro m0 y hy; cases hy
  | cons a rest ih =>
    intro m0 y hy
    simp only [List.foldl_cons]
    by_cases hr : y ∈ rest
    · exact ih ((a, role) :: m0) y hr
    · have hya : y = a := by
        rcases List.mem_cons.mp hy with h | h
        · exact h
        · exact absurd h hr
      rw [yearLookup_inner_not_mem role rest ((a, role) :: m0) y hr]
      rw [yearLookup_cons, if_pos hya]

theorem yearLookup_reverse_not_mem (pairs : List (String × List Nat)) :
    ∀ (m0 : List (Nat × String)) (y : Nat), (∀ p ∈ pairs, y ∉ p.2) →
      yearLookup y (pairs.foldl
        (fun reversed_map p => p.2.foldl (fun m year => (year, p.1) :: m) reversed_map)
        m0) = yearLookup y m0 := by
  induction pairs with
  | nil => intro m0 y _; rfl
  | cons p0 rest ih =>
    intro m0 y hy
    simp only [List.foldl_cons]
    rw [ih _ y (fun p hp => hy p (List.mem_cons_of_mem p0 hp))]
    exact yearLookup_inner_not_mem p0.1 p0.2 m0 y (hy p0 (List.mem_cons_self p0 rest))

theorem yearLookup_reverse_mem (pairs : List (String × List Nat)) :
    ∀ (m0 : List (Nat × String)) (role : String) (years : List Nat) (y : Nat),
      (∀ p1 ∈ pairs, ∀ p2 ∈ pairs, y ∈ p1.2 → y ∈ p2.2 → p1.1 = p2.1) →
      (role, years) ∈ pairs → y ∈ years →
      yearLookup y (pairs.foldl
        (fun reversed_map p => p.2.foldl (fun m year => (year, p.1) :: m) reversed_map)
        m0) = some role := by
  induction pairs with
  | nil => intro m0 role years y _ hmem _; cases hmem
  | cons p0 rest ih =>
    intro m0 role years y uniq hmem hy
    simp only [List.foldl_cons]
    by_cases hrest : ∃ p ∈ rest, y ∈ p.2
    · obtain ⟨p, hp, hyp⟩ := hrest
      have hr := ih (p0.2.foldl (fun m year => (year, p0.1) :: m) m0) p.1 p.2 y
        (fun p1 h1 p2 h2 => uniq p1 (List.mem_cons_of_mem p0 h1) p2
          (List.mem_cons_of_mem p0 h2))
        (by simpa using hp) hyp
      rw [hr]
      have : p.1 = role :=
        uniq p (List.mem_cons_of_mem p0 hp) (role, years) hmem hyp hy
      rw [this]
    · push_neg at hrest
      rw [yearLookup_reverse_not_mem rest _ y hrest]
      rcases List.mem_cons.mp hmem with h | h
      · have h1 : role = p0.1 := by rw [← h]
        have h2 : years = p0.2 := by rw [← h]
        rw [h1]
        exact yearLookup_inner_mem p0.1 p0.2 m0 y (h2 ▸ hy)
      · exact absurd hy (hrest (role, years) h)

theorem yearLookup_inner_keys (role : String) (years : List Nat) :
    ∀ (m0 : List (Nat × String)) (y : Nat) (r : String),
      yearLookup y (years.foldl (fun m year => (year, role) :: m) m0) = some r →
      r = role ∨ yearLookup y m0 = some r := by
  induction years with
  | nil => intro m0 y r h; exact Or.inr h
  | cons a rest ih =>
    intro m0 y r h
    simp only [List.foldl_cons] at h
    rcases ih ((a, role) :: m0) y r h with h1 | h1
    · exact Or.inl h1
    · rw [yearLookup_cons] at h1
      by_cases hya : y = a
      · rw [if_pos hya] at h1
        exact Or.inl (Option.some.inj h1).symm
      · rw [if_neg hya] at h1
        exact Or.inr h1

theorem yearLookup_reverse_keys (pairs : List (String × List Nat)) :
    ∀ (m0 : List (Nat × String)) (y : Nat) (r : String),
      yearLookup y (pairs.foldl
        (fun reversed_map p => p.2.foldl (fun m year => (year, p.1) :: m) reversed_map)
        m0) = some r →
      r ∈ pairs.map Prod.fst ∨ yearLookup y m0 = some r := by
  induction pairs with
  | nil => intro m0 y r h; exact Or.inr h
  | cons p0 rest ih =>
    intro m0 y r h
    simp only [List.foldl_cons] at h
    rcases ih _ y r h with h1 | h1
    · exact Or.inl (by simp [h1])
    · rcases yearLookup_inner_keys p0.1 p0.2 m0 y r h1 with h2 | h2
      · exact Or.inl (by simp [h2])
      · exact Or.inr h2

/-! ## Claim theorems: year-to-role classification -/

/-- C5 (confirmed): assuming each year appears under at most one role in
`role_year_pairs`, a member whose classified year belongs to the years of
a configured role is assigned that role, and a member whose classified
year matches no configured year is assigned the wildcard role. -/
theorem year_role_classification :
    (∀ (role_year_pairs : List (String × List Nat)) (wildcard_role role : String)
        (years : List Nat) (year : Nat),
      (∀ p1 ∈ role_year_pairs, ∀ p2 ∈ role_year_pairs,
        year ∈ p1.2 → year ∈ p2.2 → p1.1 = p2.1) →
      (role, years) ∈ role_year_pairs → year ∈ years →
      role_for_year role_year_pairs wildcard_role year = role) ∧
    (∀ (role_year_pairs : List (String × List Nat)) (wildcard_role : String)
        (year : Nat),
      (∀ p ∈ role_year_pairs, year ∉ p.2) →
      role_for_year role_year_pairs wildcard_role year = wildcard_role) := by
  constructor
  · intro pairs w role years y uniq hmem hy
    unfold role_for_year reverse_role_year_pairs
    rw [yearLookup_reverse_mem pairs [] role years y uniq hmem hy]
  · intro pairs w y habs
    unfold role_for_year reverse_role_year_pairs
    rw [yearLookup_reverse_not_mem pairs [] y habs]
    rfl

/-- C5 witness, the spec's example scenario: with
`{"Vintage": [2006, 2007], "Modern": [2020]}` and wildcard `"Member"`, a
member created in 2006 is assigned `"Vintage"` and one created in 2015 is
assigned `"Member"`. -/
theorem year_role_classification_witness :
    role_for_year [("Vintage", [2006, 2007]), ("Modern", [2020])] "Member" 2006 =
      "Vintage" ∧
    role_for_year [("Vintage", [2006, 2007]), ("Modern", [2020])] "Member" 2015 =
      "Member" :=
  ⟨year_role_classification.1 [("Vintage", [2006, 2007]), ("Modern", [2020])]
      "Member" "Vintage" [2006, 2007] 2006 (by decide) (by decide) (by decide),
   year_role_classification.2 [("Vintage", [2006, 2007]), ("Modern", [2020])]
      "Member" 2015 (by decide)⟩

/-! ## Helper lemmas: role-id resolution -/

theorem mapLookup_cons {β : Type} (k k' : String) (v : β) (m : List (String × β)) :
    mapLookup k ((k', v) :: m) = if k = k' then some v else mapLookup k m := rfl

theorem findRoleId_eq_none_iff (g : List Role) (n : String) :
    findRoleId g n = none ↔ ∀ role ∈ g, role.name ≠ n := by
  unfold findRoleId
  simp [Option.map_eq_none', List.find?_eq_none]

theorem resolve_fold_ok (g : List Role) :
    ∀ (names : List String) (m m' : List (String × Nat)),
      names.foldlM (insertResolved g) m = .ok m' →
      (∀ n ∈ names, (mapLookup n m').isSome = true) ∧
      (∀ k, (mapLookup k m).isSome = true → (mapLookup k m').isSome = true) := by
  intro names
  induction names with
  | nil =>
    intro m m' h
    rw [List.foldlM_nil] at h
    have hm : m = m' := Except.ok.inj h
    subst hm
    exact ⟨by simp, fun k hk => hk⟩
  | cons a rest ih =>
    intro m m' h
    rw [List.foldlM_cons] at h
    cases ha : insertResolved g m a with
    | error e =>
      rw [ha] at h
      exact Except.noConfusion h
    | ok m1 =>
      rw [ha] at h
      have h' : rest.foldlM (insertResolved g) m1 = .ok m' := h
      obtain ⟨h1, h2⟩ := ih m1 m' h'
      cases hf : findRoleId g a with
      | none =>
        rw [insertResolved, hf] at ha
        exact Except.noConfusion ha
      | some rid =>
        rw [insertResolved, hf] at ha
        have hm1 : (a, rid) :: m = m1 := Except.ok.inj ha
        subst hm1
        constructor
        · intro n hn
          rcases List.mem_cons.mp hn with rfl | hn'
          · exact h2 n (by rw [mapLookup_cons, if_pos rfl]; rfl)
          · exact h1 n hn'
        · intro k hk
          apply h2
          rw [mapLookup_cons]
          by_cases hka : k = a
          · rw [if_pos hka]; rfl
          · rw [if_neg hka]; exact hk

theorem resolve_fold_ok_find (g : List Role) :
    ∀ (names : List String) (m m' : List (String × Nat)),
      names.foldlM (insertResolved g) m = .ok m' →
      ∀ n ∈ names, (findRoleId g n).isSome = true := by
  intro names
  induction names with
  | nil => intro m m' _ n hn; cases hn
  | cons a rest ih =>
    intro m m' h n hn
    rw [List.foldlM_cons] at h
    cases ha : insertResolved g m a with
    | error e =>
      rw [ha] at h
      exact Except.noConfusion h
    | ok m1 =>
      rw [ha] at h
      rcases List.mem_cons.mp hn with rfl | hn'
      · cases hf : findRoleId g n with
        | none =>
          rw [insertResolved, hf] at ha
          exact Except.noConfusion ha
        | some rid => rfl
      · exact ih m1 m' h n hn'

theorem resolve_fold_err (g : List Role) :
    ∀ (names : List String) (m : List (String × Nat)) (e : Error),
      names.foldlM (insertResolved g) m = .error e →
      ∃ n, e = Error.RoleNotFound n ∧ n ∈ names ∧ findRoleId g n = none := by
  intro names
  induction names with
  | nil => intro m e h; exact Except.noConfusion h
  | cons a rest ih =>
    intro m e h
    rw [List.foldlM_cons] at h
    cases ha : insertResolved g m a with
    | error e1 =>
      rw [ha] at h
      have he : e1 = e := Except.error.inj h
      cases hf : findRoleId g a with
      | some rid =>
        rw [insertResolved, hf] at ha
        exact Except.noConfusion ha
      | none =>
        rw [insertResolved, hf] at ha
        have ha' : Error.RoleNotFound a = e1 := Except.error.inj ha
        exact ⟨a, by rw [← he, ← ha'], List.mem_cons_self a rest, hf⟩
    | ok m1 =>
      rw [ha] at h
      obtain ⟨n, hn1, hn2, hn3⟩ := ih m1 e h
      exact ⟨n, hn1, List.mem_cons_of_mem a hn2, hn3⟩

theorem generate_role_id_lookup_ok (g : List Role) (s : List String)
    (p : List (String × List Nat)) (w : String) (m : List (String × Nat))
    (h : generate_role_id_lookup g s p w = .ok m) :
    ∃ m1 m2 wid,
      s.foldlM (insertResolved g) [] = .ok m1 ∧
      (p.map Prod.fst).foldlM (insertResolved g) m1 = .ok m2 ∧
      findRoleId g w = some wid ∧
      m = (w, wid) :: m2 := by
  unfold generate_role_id_lookup at h
  split at h
  · exact Except.noConfusion h
  · rename_i m1 h1
    split at h
    · exact Except.noConfusion h
    · rename_i m2 h2
      split at h
      · rename_i wid hw
        exact ⟨m1, m2, wid, h1, h2, hw, (Except.ok.inj h).symm⟩
      · exact Except.noConfusion h

theorem generate_role_id_lookup_err (g : List Role) (s : List String)
    (p : List (String × List Nat)) (w : String) (e : Error)
    (h : generate_role_id_lookup g s p w = .error e) :
    ∃ n, e = Error.RoleNotFound n ∧ n ∈ referencedNames s p w ∧
      findRoleId g n = none := by
  unfold generate_role_id_lookup at h
  split at h
  · rename_i e1 h1
    have he : e1 = e := Except.error.inj h
    obtain ⟨n, hn1, hn2, hn3⟩ := resolve_fold_err g s [] e1 h1
    exact ⟨n, by rw [← he, hn1], by simp [referencedNames, hn2], hn3⟩
  · rename_i m1 h1
    split at h
    · rename_i e2 h2
      have he : e2 = e := Except.error.inj h
      obtain ⟨n, hn1, hn2, hn3⟩ := resolve_fold_err g (p.map Prod.fst) m1 e2 h2
      exact ⟨n, by rw [← he, hn1], by simp [referencedNames, hn2], hn3⟩
    · rename_i m2 h2
      split at h
      · exact Except.noConfusion h
      · rename_i hw
        have he : Error.RoleNotFound w = e := Except.error.inj h
        exact ⟨w, he.symm, by simp [referencedNames], hw⟩

/-! ## Claim theorems: role resolution -/

/-- C6 (confirmed): if any role name referenced by the config — a scanned
role, a key of `role_year_pairs`, or the wildcard role — is absent from
the platform's role list, the run fails with `RoleNotFound` carrying a
referenced absent name, having made zero pagination calls, yielded no
member, and performed zero role mutations. -/
theorem role_resolution_aborts_run (g : List Role) (s : List String)
    (p : List (String × List Nat)) (w : String)
    (pages : Nat → List Member × Option String) (yearOf : Nat → CallOutcome Nat)
    (setRole : Nat → Nat → CallOutcome Unit) (fuel : Nat) (n : String)
    (hn : n ∈ referencedNames s p w) (habs : ∀ role ∈ g, role.name ≠ n) :
    ∃ n', mainRun g s p w pages yearOf setRole fuel =
        ⟨.err (.RoleNotFound n'), 0, [], 0⟩ ∧
      n' ∈ referencedNames s p w ∧ ∀ role ∈ g, role.name ≠ n' := by
  have hfind : findRoleId g n = none := (findRoleId_eq_none_iff g n).mpr habs
  cases hgen : generate_role_id_lookup g s p w with
  | ok m =>
    exfalso
    obtain ⟨m1, m2, wid, hm1, hm2, hw, _⟩ :=
      generate_role_id_lookup_ok g s p w m hgen
    have hn' : n ∈ s ∨ n ∈ p.map Prod.fst ∨ n = w := by
      simpa [referencedNames, List.mem_append, or_assoc] using hn
    rcases hn' with h | h | h
    · have := resolve_fold_ok_find g s [] m1 hm1 n h
      rw [hfind] at this
      exact Bool.noConfusion this
    · have := resolve_fold_ok_find g (p.map Prod.fst) m1 m2 hm2 n h
      rw [hfind] at this
      exact Bool.noConfusion this
    · rw [h, hw] at hfind
      exact Option.noConfusion hfind
  | error e =>
    obtain ⟨n', he, hmem, hfind'⟩ := generate_role_id_lookup_err g s p w e hgen
    refine ⟨n', ?_, hmem, (findRoleId_eq_none_iff g n').mp hfind'⟩
    unfold mainRun
    rw [hgen, he]

/-- C6 witness, the spec's example scenario 4: the config references the
wildcard role `"Missing"`, absent from the group's role list, and the run
fails at once with `RoleNotFound("Missing")`: no page is fetched, no
member yielded, no mutation performed. -/
theorem role_resolution_aborts_run_witness :
    mainRun [⟨1, "A"⟩] ["A"] [] "Missing" (fun _ => ([], none))
      (fun _ => .returned 2006) (fun _ _ => .returned ()) 3 =
      ⟨.err (.RoleNotFound "Missing"), 0, [], 0⟩ := by
  obtain ⟨n', hrun, hmem, habs⟩ :=
    role_resolution_aborts_run [⟨1, "A"⟩] ["A"] [] "Missing" (fun _ => ([], none))
      (fun _ => .returned 2006) (fun _ _ => .returned ()) 3 "Missing"
      (by decide) (by decide)
  have hn : n' = "Missing" := by
    have h1 : n' ∈ ["A", "Missing"] := by simpa [referencedNames] using hmem
    rcases List.mem_cons.mp h1 with h | h
    · exact absurd h.symm (habs ⟨1, "A"⟩ (by simp))
    · simpa using h
  rw [hn] at hrun
  exact hrun

/-- C8 (confirmed): whenever `generate_role_id_lookup` succeeds, its map
contains an entry for every scanned role, every key of `role_year_pairs`,
and the wildcard role; consequently the scanned-role lookup and the
unwrapped lookups of the assigned role — be it a year-mapped role or the
wildcard — can never fail in the main loop. -/
theorem role_id_lookup_complete (g : List Role) (s : List String)
    (p : List (String × List Nat)) (w : String) (m : List (String × Nat))
    (h : generate_role_id_lookup g s p w = .ok m) :
    (∀ n ∈ s, (mapLookup n m).isSome = true) ∧
    (∀ n ∈ p.map Prod.fst, (mapLookup n m).isSome = true) ∧
    (mapLookup w m).isSome = true ∧
    (∀ year, (mapLookup (role_for_year p w year) m).isSome = true) := by
  obtain ⟨m1, m2, wid, hm1, hm2, hw, hm⟩ :=
    generate_role_id_lookup_ok g s p w m h
  subst hm
  obtain ⟨h1s, h1mono⟩ := resolve_fold_ok g s [] m1 hm1
  obtain ⟨h2s, h2mono⟩ := resolve_fold_ok g (p.map Prod.fst) m1 m2 hm2
  have hcons : ∀ k, (mapLookup k m2).isSome = true →
      (mapLookup k ((w, wid) :: m2)).isSome = true := by
    intro k hk
    rw [mapLookup_cons]
    by_cases hkw : k = w
    · rw [if_pos hkw]; rfl
    · rw [if_neg hkw]; exact hk
  have hwl : (mapLookup w ((w, wid) :: m2)).isSome = true := by
    rw [mapLookup_cons, if_pos rfl]; rfl
  refine ⟨fun n hn => hcons n (h2mono n (h1s n hn)),
    fun n hn => hcons n (h2s n hn), hwl, ?_⟩
  intro year
  unfold role_for_year
  cases hy : yearLookup year (reverse_role_year_pairs p) with
  | none => exact hwl
  | some r =>
    rw [reverse_role_year_pairs] at hy
    rcases yearLookup_reverse_keys p [] year r hy with hk | habs'
    · exact hcons r (h2s r hk)
    · exact Option.noConfusion habs'

/-- C8 witness: on a config with scanned role `"A"`, year-mapped role
`"B"`, and wildcard `"W"`, all resolvable, the generated map answers
every lookup the main loop performs — the scanned role, a year-mapped
assignment (2006 maps to `"B"`), and a wildcard assignment (1999 matches
no year). -/
theorem role_id_lookup_complete_witness :
    (mapLookup "A" [("W", 3), ("B", 2), ("A", 1)]).isSome = true ∧
    (mapLookup (role_for_year [("B", [2006])] "W" 2006)
      [("W", 3), ("B", 2), ("A", 1)]).isSome = true ∧
    (mapLookup (role_for_year [("B", [2006])] "W" 1999)
      [("W", 3), ("B", 2), ("A", 1)]).isSome = true :=
  have h := role_id_lookup_complete [⟨1, "A"⟩, ⟨2, "B"⟩, ⟨3, "W"⟩] ["A"]
    [("B", [2006])] "W" [("W", 3), ("B", 2), ("A", 1)] (by rfl)
  ⟨h.1 "A" (by decide), h.2.2.2 2006, h.2.2.2 1999⟩

/-! ## Helper lemmas: timestamp parsing -/

theorem char_digit_le (c : Char) (h : c.isDigit = true) : c.toNat - 48 ≤ 9 := by
  simp [Char.isDigit] at h
  obtain ⟨h1, h2⟩ := h
  have h2' : c.toNat ≤ 57 := h2
  omega

theorem natOfDigits_lt (l : List Char) (h : ∀ c ∈ l, c.isDigit = true) :
    natOfDigits l < 10 ^ l.length := by
  induction l with
  | nil => simp [natOfDigits]
  | cons c rest ih =>
    have hc := char_digit_le c (h c (List.mem_cons_self c rest))
    have hr := ih (fun x hx => h x (List.mem_cons_of_mem c hx))
    show (c.toNat - 48) * 10 ^ rest.length + natOfDigits rest <
      10 ^ (rest.length + 1)
    calc (c.toNat - 48) * 10 ^ rest.length + natOfDigits rest
        ≤ 9 * 10 ^ rest.length + natOfDigits rest :=
          Nat.add_le_add_right (Nat.mul_le_mul_right _ hc) _
      _ < 9 * 10 ^ rest.length + 10 ^ rest.length := by omega
      _ = 10 ^ (rest.length + 1) := by rw [pow_succ]; ring

theorem parseDigits_eq (l : List Char) (hne : l ≠ [])
    (h : ∀ c ∈ l, c.isDigit = true) : parseDigits l = some (natOfDigits l) := by
  induction l with
  | nil => exact absurd rfl hne
  | cons c rest ih =>
    have hc : c.isDigit = true := h c (List.mem_cons_self c rest)
    cases rest with
    | nil =>
      have hstep : parseDigits [c] =
          if c.isDigit then some (c.toNat - 48) else none := rfl
      rw [hstep, if_pos hc]
      simp [natOfDigits]
    | cons c2 rest2 =>
      have ih' := ih (by simp) (fun x hx => h x (List.mem_cons_of_mem c hx))
      have hstep : parseDigits (c :: c2 :: rest2) =
          if c.isDigit then
            (parseDigits (c2 :: rest2)).map
              (fun v => (c.toNat - 48) * 10 ^ (c2 :: rest2).length + v)
          else none := rfl
      rw [hstep, if_pos hc, ih']
      simp [natOfDigits]

theorem parseU64_cons (c : Char) (rest : List Char) (hc : c ≠ '+') :
    parseU64 (String.mk (c :: rest)) =
      (parseDigits (c :: rest)).bind
        (fun v => if v < 2 ^ 64 then some v else none) := by
  unfold parseU64
  congr 1
  split
  · rename_i rest' heq
    have h2 : c :: rest = '+' :: rest' := heq
    exact absurd (List.cons.inj h2).1 hc
  · rfl

/-! ## Claim theorems: timestamp extraction -/

/-- C9 (confirmed): when `created_at` begins with at least 4 characters
that are decimal digits, `year_created`'s extraction returns their
numeric value without panicking; a `created_at` shorter than 4 characters
makes the slice panic (modelled as `none`), and `year_created` then
resolves as a panic rather than an error. -/
theorem created_at_parse_safety :
    (∀ (s : String) (l rest : List Char),
      s.data = l ++ rest → l.length = 4 → (∀ c ∈ l, c.isDigit = true) →
      extract_year s = some (natOfDigits l)) ∧
    extract_year "20" = none ∧
    (year_created (fun _ => .ok ⟨"20"⟩)).result = .panicked := by
  refine ⟨?_, by decide, by decide⟩
  intro s l rest hdata hlen hdig
  unfold extract_year
  rw [hdata]
  rw [if_neg (by rw [List.length_append, hlen]; omega)]
  have htake : (l ++ rest).take 4 = l := by
    rw [← hlen]
    exact List.take_left l rest
  rw [htake]
  cases l with
  | nil => cases hlen
  | cons c l' =>
    have hc : c.isDigit = true := hdig c (List.mem_cons_self c l')
    have hplus : c ≠ '+' := by
      intro hp
      rw [hp] at hc
      exact absurd hc (by decide)
    rw [parseU64_cons c l' hplus]
    rw [parseDigits_eq (c :: l') (by simp) hdig]
    show (if natOfDigits (c :: l') < 2 ^ 64 then some (natOfDigits (c :: l'))
      else none) = some (natOfDigits (c :: l'))
    have hlt : natOfDigits (c :: l') < 2 ^ 64 := by
      have h1 := natOfDigits_lt (c :: l') hdig
      rw [hlen] at h1
      calc natOfDigits (c :: l') < 10 ^ 4 := h1
        _ ≤ 2 ^ 64 := by norm_num
    rw [if_pos hlt]

/-- C9 witness: a well-formed ISO-8601 timestamp yields its leading
four-digit year. -/
theorem created_at_parse_safety_witness :
    extract_year "2006-03-21T00:00:00.000Z" = some 2006 := by
  have h := created_at_parse_safety.1 "2006-03-21T00:00:00.000Z"
    ['2', '0', '0', '6'] "-03-21T00:00:00.000Z".data (by decide) (by decide)
    (by decide)
  rw [h]
  decide

end ClassicsRankingBot
